import Mathlib

/-!
Verification of the `limittar` size-prediction core (`limittar/__init__.py`).

The filesystem is modelled by the information the code actually consumes for
each path: the result of a (symlink-following) `stat`.  `os.path.getsize`
raises `OSError` exactly when that stat fails, which we model by
`stat = none`; `os.path.isfile` is the `isfile` flag of a successful stat.
Paths carry their string form (only used for Python truthiness, i.e.
emptiness, in `add_paths`) and the byte length of their encoded form (the
code encodes the path before measuring, so only the encoded byte length
matters).

Python's unbounded integers are modelled as `Nat`; the `math.ceil` of a float
quotient of two machine-range integers is embedded as the exact ceiling
division on `Nat`, and `int(...)` truncation of a non-negative float quotient
as exact floor division.
-/

namespace Limittar

/-- Result of a successful (following) `stat` on a path: whether
`os.path.isfile` holds and the size `os.path.getsize` returns. -/
structure Stat where
  isfile : Bool
  size : Nat
deriving DecidableEq, Repr

/-- A path as the size-prediction code observes it: its string form (used only
for emptiness checks in `add_paths`), the byte length of its encoded form, and
its stat result (`none` = the stat raises `OSError`, e.g. the path is
missing). -/
structure PathInfo where
  name : String
  encLen : Nat
  stat : Option Stat
deriving DecidableEq, Repr

/-- Embedding of `determine_tar_file_size` (`__init__.py` lines 48-79).

```
size = 512
path_size = len(path)                    # encoded byte length
if path_size > 100:
    size += 512 + 512 * int(math.ceil(path_size/512))
file_size = os.path.getsize(path)        # raises OSError if stat fails
if os.path.isfile(path):
    size += 512 * int(math.ceil(file_size)/512)
return size
```

`math.ceil(path_size/512)` is the ceiling of the quotient, embedded as
`(path_size + 511) / 512` in `Nat`.  Note the parenthesisation on the payload
line: `math.ceil(file_size)` is applied to the *integer* `file_size` (a
no-op), then float-divided by 512 and truncated by `int(...)`, so the payload
term is `512 * (file_size / 512)` with *floor* division. -/
def determine_tar_file_size (p : PathInfo) : Except Unit Nat :=
  let size0 : Nat := 512
  let size1 : Nat :=
    if p.encLen > 100 then size0 + (512 + 512 * ((p.encLen + 511) / 512))
    else size0
  match p.stat with
  | none => .error ()
  | some st =>
      .ok (if st.isfile then size1 + 512 * (st.size / 512) else size1)

/-- Embedding of `determine_tar_archive_size` (`__init__.py` lines 81-93):
`int(bufsize * math.ceil((tar_data_size + 512*2)/bufsize))`, the ceiling
division embedded as `(x + (bufsize - 1)) / bufsize` in `Nat`. -/
def determine_tar_archive_size (tar_data_size : Nat) (bufsize : Nat := 20 * 512) : Nat :=
  bufsize * ((tar_data_size + 512 * 2 + (bufsize - 1)) / bufsize)

/-- Rejection reasons of a single `add_path` call: the `SizeLimitReached`
exception or the propagated `OSError` from the stat. -/
inductive AddErr
  | sizeLimitReached
  | osError
deriving DecidableEq, Repr

/-- The `LimitTar` session state consumed by the size-prediction core:
`_size_limit` (`none` = Python `None`), `_bufsize`, the FIFO `_path_queue` of
admitted paths, and the running `_data_size` accumulator. -/
structure LimitTar where
  size_limit : Option Nat
  bufsize : Nat
  path_queue : List PathInfo
  data_size : Nat
deriving DecidableEq, Repr

/-- The `size` property (`__init__.py` lines 115-117). -/
def LimitTar.size (t : LimitTar) : Nat :=
  determine_tar_archive_size t.data_size t.bufsize

/-- Embedding of `LimitTar.add_path` (`__init__.py` lines 126-148).  The
Python guard is `if self._size_limit and archive_size > self._size_limit:`;
`self._size_limit` is truthy iff it is an int different from 0 (`None` and `0`
are falsy).  On success the path is enqueued and `_data_size` is advanced; the
two raise paths leave the session unmodified. -/
def LimitTar.add_path (t : LimitTar) (p : PathInfo) : Except AddErr LimitTar :=
  match determine_tar_file_size p with
  | .error _ => .error .osError
  | .ok tar_file_size =>
      let predicted_size := t.data_size + tar_file_size
      let archive_size := determine_tar_archive_size predicted_size t.bufsize
      let limit_truthy_and_exceeded : Bool :=
        match t.size_limit with
        | none => false
        | some l => decide (l ≠ 0) && decide (archive_size > l)
      if limit_truthy_and_exceeded then .error .sizeLimitReached
      else .ok { t with
                  path_queue := t.path_queue ++ [p],
                  data_size := predicted_size }

/-- The session state observed after an `add_path` call together with the
exception it raised, if any: the Python method mutates `self` only on the
success path (the raise happens before `put` and `+=`). -/
def LimitTar.add_path_run (t : LimitTar) (p : PathInfo) : LimitTar × Option AddErr :=
  match t.add_path p with
  | .ok t' => (t', none)
  | .error e => (t, some e)

/-- `add_path` applied to a whole list of paths, failing on the first
rejection. -/
def add_path_list (t : LimitTar) : List PathInfo → Except AddErr LimitTar
  | [] => .ok t
  | p :: ps =>
      match t.add_path p with
      | .ok t' => add_path_list t' ps
      | .error e => .error e

/-- The per-file predicted size as a plain `Nat` (0 when the stat fails);
used to state sum-accumulation facts about successful admissions, where the
stat never fails. -/
def fileSizeD (p : PathInfo) : Nat :=
  match determine_tar_file_size p with
  | .ok n => n
  | .error _ => 0

/-- The exception values the `add_paths` generator can yield. -/
inductive Exc
  | underrun
  | sizeLimitReached
  | osError
deriving DecidableEq, Repr

/-- Embedding of the loop body of `LimitTar.add_paths`
(`__init__.py` lines 176-199).

```
halt = False
for i, path in enumerate(paths):
    if not path:
        continue
    if not halt:
        if i > 10 and halt_on_underrun and self._path_queue.empty():
            exception = Underrun(...); halt = True
        try:
            self.add_path(path)
        except SizeLimitReached as e:
            exception = e
            if halt_on_size_limit_reached: halt = True
        except OSError as e:
            exception = e
            if halt_on_os_error: halt = True
        else:
            continue
    yield path, exception
```

`qe i` is the value the racy `self._path_queue.empty()` check observes at
loop index `i` (the queue is drained concurrently by the worker, so the
observation is an oracle of the schedule).  `exc` is the current value of the
Python local `exception` (`none` = not yet assigned).  The returned pair is
the list of yielded `(path, exception)` rejections and the final session
state. -/
def add_paths_go (hs hu ho : Bool) (qe : Nat → Bool) :
    Nat → LimitTar → Bool → Option Exc → List PathInfo →
    List (PathInfo × Option Exc) × LimitTar
  | _, t, _, _, [] => ([], t)
  | i, t, halt, exc, p :: rest =>
      if p.name = "" then
        add_paths_go hs hu ho qe (i + 1) t halt exc rest
      else if halt then
        let r := add_paths_go hs hu ho qe (i + 1) t halt exc rest
        ((p, exc) :: r.1, r.2)
      else
        let checked : Bool × Option Exc :=
          if i > 10 && hu && qe i then (true, some Exc.underrun) else (halt, exc)
        match t.add_path p with
        | .ok t' =>
            -- the `else: continue` of the `try`: nothing is yielded
            add_paths_go hs hu ho qe (i + 1) t' checked.1 checked.2 rest
        | .error .sizeLimitReached =>
            let exc' := some Exc.sizeLimitReached
            let halt' := checked.1 || hs
            let r := add_paths_go hs hu ho qe (i + 1) t halt' exc' rest
            ((p, exc') :: r.1, r.2)
        | .error .osError =>
            let exc' := some Exc.osError
            let halt' := checked.1 || ho
            let r := add_paths_go hs hu ho qe (i + 1) t halt' exc' rest
            ((p, exc') :: r.1, r.2)

/-- Embedding of `LimitTar.add_paths`: run the loop from index 0 with
`halt = False` and `exception` unassigned. -/
def add_paths (t : LimitTar) (qe : Nat → Bool)
    (halt_on_size_limit_reached halt_on_underrun halt_on_os_error : Bool)
    (paths : List PathInfo) : List (PathInfo × Option Exc) × LimitTar :=
  add_paths_go halt_on_size_limit_reached halt_on_underrun halt_on_os_error
    qe 0 t false none paths

/-- The `Nat` ceiling division `(a + b - 1) / b` over-approximates `a / b`
tightly: `b * ((a + b - 1) / b)` is at least `a` and less than `a + b`. -/
lemma mul_div_ceil_bounds (a b : Nat) (hb : 0 < b) :
    a ≤ b * ((a + b - 1) / b) ∧ b * ((a + b - 1) / b) < a + b := by
  have hdm := Nat.div_add_mod (a + b - 1) b
  have hmod : (a + b - 1) % b < b := Nat.mod_lt _ hb
  set Q := b * ((a + b - 1) / b) with hQ
  set R := (a + b - 1) % b with hR
  omega

/-- The `Nat` ceiling division `(a + b - 1) / b` equals the mathematical
ceiling of the rational quotient `a / b`. -/
lemma ceil_div_cast (a b : Nat) (hb : 0 < b) :
    ⌈(a : ℚ) / (b : ℚ)⌉ = (((a + b - 1) / b : ℕ) : ℤ) := by
  obtain ⟨h1, h2⟩ := mul_div_ceil_bounds a b hb
  have hb' : (0 : ℚ) < (b : ℚ) := by exact_mod_cast hb
  set n := (a + b - 1) / b with hn
  have h1' : (a : ℚ) ≤ (b : ℚ) * (n : ℚ) := by exact_mod_cast h1
  have h2' : (b : ℚ) * (n : ℚ) < (a : ℚ) + (b : ℚ) := by exact_mod_cast h2
  rw [Int.ceil_eq_iff, Int.cast_natCast]
  constructor
  · rw [lt_div_iff₀ hb']
    nlinarith [h2']
  · rw [div_le_iff₀ hb']
    nlinarith [h1']

/-- `determine_tar_archive_size` computes exactly the spec formula
`block_size * ceil((total + 2*512) / block_size)` with a true rational
ceiling. -/
lemma dtas_cast (t bs : Nat) (hb : 0 < bs) :
    ((determine_tar_archive_size t bs : ℕ) : ℤ) =
      (bs : ℤ) * ⌈((t : ℚ) + 2 * 512) / (bs : ℚ)⌉ := by
  have h : (t : ℚ) + 2 * 512 = ((t + 1024 : ℕ) : ℚ) := by push_cast; ring
  rw [h, ceil_div_cast (t + 1024) bs hb]
  unfold determine_tar_archive_size
  have h2 : t + 512 * 2 + (bs - 1) = t + 1024 + bs - 1 := by omega
  rw [h2]
  push_cast
  ring

/-- A successful `add_path` advances `_data_size` by exactly the file's
predicted size and preserves `_bufsize`. -/
lemma add_path_ok_data {t t' : LimitTar} {p : PathInfo}
    (h : t.add_path p = Except.ok t') :
    t'.data_size = t.data_size + fileSizeD p ∧ t'.bufsize = t.bufsize := by
  unfold LimitTar.add_path at h
  cases hd : determine_tar_file_size p with
  | error e => rw [hd] at h; exact absurd h (by simp)
  | ok n =>
      rw [hd] at h
      dsimp only at h
      split at h
      · exact absurd h (by simp)
      · cases h with
        | refl => simp [fileSizeD, hd]

/-- A successful sequence of `add_path` calls advances `_data_size` by the sum
of the individual predicted sizes and preserves `_bufsize`. -/
lemma add_path_list_data : ∀ (ps : List PathInfo) (t t' : LimitTar),
    add_path_list t ps = Except.ok t' →
    t'.data_size = t.data_size + (ps.map fileSizeD).sum ∧ t'.bufsize = t.bufsize := by
  intro ps
  induction ps with
  | nil =>
      intro t t' h
      unfold add_path_list at h
      cases h with
      | refl => simp
  | cons p rest ih =>
      intro t t' h
      unfold add_path_list at h
      cases hd : t.add_path p with
      | error e => rw [hd] at h; exact absurd h (by simp)
      | ok t1 =>
          rw [hd] at h
          obtain ⟨h1, h2⟩ := add_path_ok_data hd
          obtain ⟨h3, h4⟩ := ih t1 t' h
          refine ⟨?_, by rw [h4, h2]⟩
          rw [h3, h1]
          simp [List.sum_cons]
          omega

/-- Claim C1: the claim states that for a regular file the payload cost is
`512 * ceil(file_byte_length / 512)`.  The code instead computes
`512 * int(math.ceil(file_size)/512)` — `math.ceil` applied to the integer
`file_size` is a no-op, so the payload is *floor*-divided.  At a regular file
of 1 byte with a short (1-byte) encoded name the code predicts 512 bytes
(header only, payload cost 0), while the claimed formula gives
`512 + 512 * ceil(1/512) = 1024`. -/
theorem C1_payload_cost_rounds_down :
    determine_tar_file_size ⟨"a", 1, some ⟨true, 1⟩⟩ = Except.ok 512 ∧
    (512 : ℤ) + 512 * ⌈(1 : ℚ) / 512⌉ = 1024 ∧ (512 : ℤ) ≠ 1024 := by
  refine ⟨rfl, ?_, by norm_num⟩
  rw [show (1 : ℚ) / 512 = ((1 : ℕ) : ℚ) / ((512 : ℕ) : ℚ) by norm_num,
    ceil_div_cast 1 512 (by norm_num)]
  norm_num

/-- Claim C2: for every total payload size and positive block size,
`determine_tar_archive_size` equals
`block_size * ceil((total_payload_bytes + 2*512) / block_size)` (true
rational ceiling), and the session's `size` property is exactly this function
applied to the current `_data_size` and the session's `_bufsize`. -/
theorem C2_archive_size_formula (t bs : Nat) (hb : 0 < bs) (lt : LimitTar)
    (hlt : 0 < lt.bufsize) :
    ((determine_tar_archive_size t bs : ℕ) : ℤ) =
      (bs : ℤ) * ⌈((t : ℚ) + 2 * 512) / (bs : ℚ)⌉ ∧
    LimitTar.size lt = determine_tar_archive_size lt.data_size lt.bufsize ∧
    ((LimitTar.size lt : ℕ) : ℤ) =
      (lt.bufsize : ℤ) * ⌈((lt.data_size : ℚ) + 2 * 512) / (lt.bufsize : ℚ)⌉ :=
  ⟨dtas_cast t bs hb, rfl, dtas_cast lt.data_size lt.bufsize hlt⟩

/-- Witness for C2 at `total = 512`, `block_size = 10240` and a session with
`_data_size = 512`. -/
theorem C2_archive_size_formula_witness :
    ((determine_tar_archive_size 512 10240 : ℕ) : ℤ) =
      (10240 : ℤ) * ⌈((512 : ℚ) + 2 * 512) / (10240 : ℚ)⌉ ∧
    LimitTar.size ⟨some 10240, 10240, [], 512⟩ =
      determine_tar_archive_size 512 10240 ∧
    ((LimitTar.size ⟨some 10240, 10240, [], 512⟩ : ℕ) : ℤ) =
      ((10240 : ℕ) : ℤ) * ⌈(((512 : ℕ) : ℚ) + 2 * 512) / ((10240 : ℕ) : ℚ)⌉ := by
  have := C2_archive_size_formula 512 10240 (by norm_num) ⟨some 10240, 10240, [], 512⟩
    (by norm_num)
  exact_mod_cast this

/-- Counterexample to claim C3 as stated: with the size limit *set* to `0`
(a valid non-negative limit under the spec's data model) the candidate
archive size (10240 bytes) strictly exceeds the limit, yet `add_path`
succeeds and commits the path, because `0` is falsy in the Python guard
`if self._size_limit and ...`. -/
theorem C3_zero_limit_counterexample :
    ((⟨some 0, 10240, [], 0⟩ : LimitTar).size_limit).isSome = true ∧
    0 < determine_tar_archive_size
        ((⟨some 0, 10240, [], 0⟩ : LimitTar).data_size +
          fileSizeD ⟨"a", 1, some ⟨true, 0⟩⟩) 10240 ∧
    LimitTar.add_path_run ⟨some 0, 10240, [], 0⟩ ⟨"a", 1, some ⟨true, 0⟩⟩ =
      (⟨some 0, 10240, [⟨"a", 1, some ⟨true, 0⟩⟩], 512⟩, none) := by
  refine ⟨rfl, by decide, rfl⟩

/-- Claim C3 (amended): if the size limit is set to a *nonzero* value and the
candidate archive size (current predicted total plus the path's estimated
size) strictly exceeds it, `add_path` fails with `SizeLimitReached` and the
session — in particular `_data_size` and the queue — is exactly unchanged. -/
theorem C3_size_limit_rejection (t : LimitTar) (p : PathInfo) (l fs : Nat)
    (hl : t.size_limit = some l) (h0 : l ≠ 0)
    (hf : determine_tar_file_size p = Except.ok fs)
    (hex : l < determine_tar_archive_size (t.data_size + fs) t.bufsize) :
    t.add_path_run p = (t, some AddErr.sizeLimitReached) := by
  unfold LimitTar.add_path_run LimitTar.add_path
  rw [hf, hl]
  simp [h0, hex]

/-- Witness for C3 (amended): limit 100, an empty regular file whose
admission would make the archive 10240 bytes. -/
theorem C3_size_limit_rejection_witness :
    LimitTar.add_path_run ⟨some 100, 10240, [], 0⟩ ⟨"a", 1, some ⟨true, 0⟩⟩ =
      (⟨some 100, 10240, [], 0⟩, some AddErr.sizeLimitReached) :=
  C3_size_limit_rejection ⟨some 100, 10240, [], 0⟩ ⟨"a", 1, some ⟨true, 0⟩⟩ 100 512 rfl
    (by norm_num) rfl (by decide)

/-- Claim C4: starting from a fresh accumulator, after a sequence of
successful `add_path` admissions `_data_size` equals the sum of the
individual per-file predicted sizes, and the `size` property equals the
archive-size formula applied to that sum and the session's block size. -/
theorem C4_data_size_accumulates (t t' : LimitTar) (ps : List PathInfo)
    (h0 : t.data_size = 0) (h : add_path_list t ps = Except.ok t') :
    t'.data_size = (ps.map fileSizeD).sum ∧
    t'.size = determine_tar_archive_size ((ps.map fileSizeD).sum) t.bufsize := by
  obtain ⟨h1, h2⟩ := add_path_list_data ps t t' h
  have hd : t'.data_size = (ps.map fileSizeD).sum := by omega
  exact ⟨hd, by rw [LimitTar.size, hd, h2]⟩

/-- Witness for C4: two empty regular files admitted into a session with
limit 20480. -/
theorem C4_data_size_accumulates_witness :
    (⟨some 20480, 10240, [⟨"a", 1, some ⟨true, 0⟩⟩, ⟨"c", 1, some ⟨true, 0⟩⟩], 1024⟩ :
        LimitTar).data_size =
      ([⟨"a", 1, some ⟨true, 0⟩⟩, ⟨"c", 1, some ⟨true, 0⟩⟩].map fileSizeD).sum ∧
    LimitTar.size
        ⟨some 20480, 10240, [⟨"a", 1, some ⟨true, 0⟩⟩, ⟨"c", 1, some ⟨true, 0⟩⟩], 1024⟩ =
      determine_tar_archive_size
        (([⟨"a", 1, some ⟨true, 0⟩⟩, ⟨"c", 1, some ⟨true, 0⟩⟩].map fileSizeD).sum) 10240 :=
  C4_data_size_accumulates ⟨some 20480, 10240, [], 0⟩ _ _ rfl rfl

/-- Claim C5: once the `halt` flag is true at the start of an iteration, the
feeder emits every remaining non-empty path as a rejection carrying the saved
exception and returns the session unchanged — for *arbitrary* path stats, so
no admission is ever attempted on those paths.  In the concrete scenario with
`halt_on_size_limit` enabled and input `[fileA (fits), fileB (exceeds limit),
fileC (fits)]`, fileA is admitted and the rejection sequence is exactly fileB
then fileC, both carrying the `SizeLimitReached` exception, with the session
having committed only fileA's 512 bytes. -/
theorem C5_halted_rejections :
    (∀ hs hu ho qe i t exc ps,
      add_paths_go hs hu ho qe i t true exc ps =
        ((ps.filter fun p => p.name ≠ "").map fun p => (p, exc), t)) ∧
    add_paths ⟨some 10240, 10240, [], 0⟩ (fun _ => false) true false false
        [⟨"fileA", 5, some ⟨true, 0⟩⟩, ⟨"fileB", 5, some ⟨true, 8704⟩⟩,
          ⟨"fileC", 5, some ⟨true, 0⟩⟩] =
      ([(⟨"fileB", 5, some ⟨true, 8704⟩⟩, some Exc.sizeLimitReached),
        (⟨"fileC", 5, some ⟨true, 0⟩⟩, some Exc.sizeLimitReached)],
       ⟨some 10240, 10240, [⟨"fileA", 5, some ⟨true, 0⟩⟩], 512⟩) := by
  constructor
  · intro hs hu ho qe i t exc ps
    induction ps generalizing i with
    | nil => rfl
    | cons p rest ih =>
        by_cases hp : p.name = "" <;> simp [add_paths_go, hp, ih]
  · rfl

/-- Claim C6: the claim states that when the underrun check fires the current
path is emitted as an `Underrun` rejection and not admitted.  The code
instead continues into the `try` block after setting `halt = True`: feeding
12 admissible one-record files with `halt_on_underrun` enabled and the queue
observed empty, the check fires at index 11, yet that path is *admitted*
(final `_data_size` is `12 * 512 = 6144`, all 12 paths are queued) and no
rejection at all is yielded; a 13th path is then yielded with the stale
`Underrun` exception without being attempted.  (The guard is `i > 10`, so the
check also first applies to the 12th item, not right after the first 10.) -/
theorem C6_underrun_still_admits :
    add_paths ⟨none, 10240, [], 0⟩ (fun _ => true) false true false
        (List.replicate 12 ⟨"s", 1, some ⟨true, 0⟩⟩) =
      ([], ⟨none, 10240, List.replicate 12 ⟨"s", 1, some ⟨true, 0⟩⟩, 6144⟩) ∧
    add_paths ⟨none, 10240, [], 0⟩ (fun _ => true) false true false
        (List.replicate 12 ⟨"s", 1, some ⟨true, 0⟩⟩ ++ [⟨"x", 1, some ⟨true, 0⟩⟩]) =
      ([(⟨"x", 1, some ⟨true, 0⟩⟩, some Exc.underrun)],
       ⟨none, 10240, List.replicate 12 ⟨"s", 1, some ⟨true, 0⟩⟩, 6144⟩) :=
  ⟨by rfl, by rfl⟩

/-- Claim C7: a path whose encoded byte length is exactly 100 gets no
long-name extension (its predicted size equals that of any path of encoded
length at most 100 with the same stat), a path of encoded length `L > 100`
costs exactly `512 + 512 * ceil(L / 512)` bytes more than such a short-named
path, and a 200-byte encoded name with 0-byte regular-file content is
predicted at 1536 bytes. -/
theorem C7_long_name_extension (nmA nmB nmC : String) (L k : Nat) (s : Stat)
    (hL : 100 < L) (hk : k ≤ 100) :
    fileSizeD ⟨nmA, 100, some s⟩ = fileSizeD ⟨nmB, k, some s⟩ ∧
    ((fileSizeD ⟨nmA, L, some s⟩ : ℕ) : ℤ) =
      ((fileSizeD ⟨nmB, k, some s⟩ : ℕ) : ℤ) + (512 + 512 * ⌈(L : ℚ) / 512⌉) ∧
    determine_tar_file_size ⟨nmC, 200, some ⟨true, 0⟩⟩ = Except.ok 1536 := by
  have hceil : ⌈(L : ℚ) / 512⌉ = (((L + 511) / 512 : ℕ) : ℤ) := by
    rw [show (512 : ℚ) = ((512 : ℕ) : ℚ) by norm_num, ceil_div_cast L 512 (by norm_num),
      show L + 512 - 1 = L + 511 from by omega]
  refine ⟨?_, ?_, by simp [determine_tar_file_size]⟩
  · unfold fileSizeD determine_tar_file_size
    simp [Nat.not_lt.mpr hk]
  · unfold fileSizeD determine_tar_file_size
    simp only [hceil]
    have hgt : ¬ (k > 100) := Nat.not_lt.mpr hk
    simp [hL, hgt]
    set c := (L + 511) / 512 with hc
    cases hs : s.isfile
    · simp [hs]
    · simp [hs]
      ring

/-- Witness for C7 at `L = 200`, `k = 10` and an empty regular file. -/
theorem C7_long_name_extension_witness :
    fileSizeD ⟨"a", 100, some ⟨true, 0⟩⟩ = fileSizeD ⟨"b", 10, some ⟨true, 0⟩⟩ ∧
    ((fileSizeD ⟨"a", 200, some ⟨true, 0⟩⟩ : ℕ) : ℤ) =
      ((fileSizeD ⟨"b", 10, some ⟨true, 0⟩⟩ : ℕ) : ℤ) +
        (512 + 512 * ⌈((200 : ℕ) : ℚ) / 512⌉) ∧
    determine_tar_file_size ⟨"c", 200, some ⟨true, 0⟩⟩ = Except.ok 1536 :=
  C7_long_name_extension "a" "b" "c" 200 10 ⟨true, 0⟩ (by norm_num) (by norm_num)

/-- Claim C8: `determine_tar_archive_size` is monotonically non-decreasing in
its total-payload argument for any fixed positive block size, and for every
block size of at least 1024 bytes the empty-payload archive size is exactly
one block. -/
theorem C8_archive_size_monotone :
    (∀ bs, 0 < bs → ∀ t t', t ≤ t' →
      determine_tar_archive_size t bs ≤ determine_tar_archive_size t' bs) ∧
    (∀ bs, 1024 ≤ bs → determine_tar_archive_size 0 bs = bs) := by
  constructor
  · intro bs hb t t' h
    unfold determine_tar_archive_size
    exact Nat.mul_le_mul_left _ (Nat.div_le_div_right (by omega))
  · intro bs hb
    unfold determine_tar_archive_size
    have h1 : (0 + 512 * 2 + (bs - 1)) / bs = 1 := by
      apply Nat.div_eq_of_lt_le <;> omega
    rw [h1, Nat.mul_one]

/-- Witness for C8 at block size 10240 and totals 0 and 512. -/
theorem C8_archive_size_monotone_witness :
    determine_tar_archive_size 0 10240 ≤ determine_tar_archive_size 512 10240 ∧
    determine_tar_archive_size 0 10240 = 10240 :=
  ⟨C8_archive_size_monotone.1 10240 (by norm_num) 0 512 (by norm_num),
    C8_archive_size_monotone.2 10240 (by norm_num)⟩

/-- Claim C9: when the stat of a path fails (the path does not exist), the
per-file size estimation fails with the I/O error — it is never silently
treated as zero, whatever the path's name length — and `add_path` propagates
this as the `OSError` rejection kind, leaving the session unchanged. -/
theorem C9_stat_failure_propagates (p : PathInfo) (h : p.stat = none)
    (t : LimitTar) :
    determine_tar_file_size p = Except.error () ∧
    t.add_path_run p = (t, some AddErr.osError) := by
  have h1 : determine_tar_file_size p = Except.error () := by
    unfold determine_tar_file_size
    rw [h]
  refine ⟨h1, ?_⟩
  unfold LimitTar.add_path_run LimitTar.add_path
  rw [h1]

/-- Witness for C9 on a missing path. -/
theorem C9_stat_failure_propagates_witness :
    determine_tar_file_size ⟨"gone", 4, none⟩ = Except.error () ∧
    LimitTar.add_path_run ⟨some 10240, 10240, [], 0⟩ ⟨"gone", 4, none⟩ =
      (⟨some 10240, 10240, [], 0⟩, some AddErr.osError) :=
  C9_stat_failure_propagates ⟨"gone", 4, none⟩ rfl ⟨some 10240, 10240, [], 0⟩

/-- Claim C10: with the size limit set to `0`, `add_path` never raises
`SizeLimitReached` for any path, and the call behaves identically to a
session whose limit is absent -- the Python guard `if self._size_limit and ...`
treats `0` as falsy. -/
theorem C10_zero_limit_unlimited (t : LimitTar) (p : PathInfo) :
    (LimitTar.add_path { t with size_limit := some 0 } p ≠
      Except.error AddErr.sizeLimitReached) ∧
    Except.map (fun s => { s with size_limit := none })
        (LimitTar.add_path { t with size_limit := some 0 } p) =
      LimitTar.add_path { t with size_limit := none } p := by
  unfold LimitTar.add_path
  cases hd : determine_tar_file_size p with
  | error e => simp [Except.map]
  | ok n => simp [Except.map]

end Limittar
